import Mathlib

/-!
Verification of the POSIX crash-capture subsystem in
`lib/exceptionhandler/exceptionhandler.c` (Warzone 2100).

The POSIX arm of the file is shallowly embedded here.  Machine integers
(signal numbers, `siginfo` cause codes, file descriptors, `waitpid` status
words) are modelled as `Int`/`Nat`; the side effects performed inside the
fault handler (raw `write`s, `mkstemp`, `pipe`, `fork`, `waitpid`,
`sigaction`, `raise`) are modelled as an explicit event trace.  Environment
records capture the results the operating system returns to the code
(`mkstemp` success/failure, `pipe` success/failure, `fork` result,
`waitpid` result), so every control-flow path of the source is a branch of
the Lean definitions.

Signal numbers and `si_code` values use the Linux/glibc values, the
platform targeted by the `WZ_OS_UNIX`/`__GLIBC__` arm of the source
(`_XOPEN_UNIX` is defined there, and `POLL_ERR != POLL_HUP`).
-/

namespace WZ

/-! ## Signal numbers and cause codes (Linux/glibc values) -/

def SIGHUP : Int := 1
def SIGINT : Int := 2
def SIGQUIT : Int := 3
def SIGILL : Int := 4
def SIGTRAP : Int := 5
def SIGABRT : Int := 6
def SIGBUS : Int := 7
def SIGFPE : Int := 8
def SIGKILL : Int := 9
def SIGUSR1 : Int := 10
def SIGSEGV : Int := 11
def SIGUSR2 : Int := 12
def SIGPIPE : Int := 13
def SIGALRM : Int := 14
def SIGTERM : Int := 15
def SIGCHLD : Int := 17
def SIGCONT : Int := 18
def SIGSTOP : Int := 19
def SIGTSTP : Int := 20
def SIGTTIN : Int := 21
def SIGTTOU : Int := 22
def SIGURG : Int := 23
def SIGXCPU : Int := 24
def SIGXFSZ : Int := 25
def SIGVTALRM : Int := 26
def SIGPROF : Int := 27
def SIGPOLL : Int := 29
def SIGSYS : Int := 31

def BUS_ADRALN : Int := 1
def BUS_ADRERR : Int := 2
def BUS_OBJERR : Int := 3

def CLD_EXITED : Int := 1
def CLD_KILLED : Int := 2
def CLD_DUMPED : Int := 3
def CLD_TRAPPED : Int := 4
def CLD_STOPPED : Int := 5
def CLD_CONTINUED : Int := 6

def FPE_INTDIV : Int := 1
def FPE_INTOVF : Int := 2
def FPE_FLTDIV : Int := 3
def FPE_FLTOVF : Int := 4
def FPE_FLTUND : Int := 5
def FPE_FLTRES : Int := 6
def FPE_FLTINV : Int := 7
def FPE_FLTSUB : Int := 8

def ILL_ILLOPC : Int := 1
def ILL_ILLOPN : Int := 2
def ILL_ILLADR : Int := 3
def ILL_ILLTRP : Int := 4
def ILL_PRVOPC : Int := 5
def ILL_PRVREG : Int := 6
def ILL_COPROC : Int := 7
def ILL_BADSTK : Int := 8

def SEGV_MAPERR : Int := 1
def SEGV_ACCERR : Int := 2

def POLL_IN : Int := 1
def POLL_OUT : Int := 2
def POLL_MSG : Int := 3
def POLL_ERR : Int := 4
def POLL_PRI : Int := 5
def POLL_HUP : Int := 6

def TRAP_BRKPT : Int := 1
def TRAP_TRACE : Int := 2

/-! ## The signal classifier `wz_strsignal` (source lines 162-338)

The C function is a `switch` on `signum` with nested `switch`es on
`sigcode`.  Every `case` `return`s directly, with one exception: the inner
`switch` for `SIGCHLD` (lines 182-197) has no `default` label, so for a
`sigcode` matching none of the six `CLD_*` cases control falls out of the
inner `switch` and through the `case SIGCONT:` label, returning the
`SIGCONT` description.  The embedding reproduces that fall-through. -/

def wz_strsignal (signum : Int) (sigcode : Int) : String :=
  if signum = SIGABRT then "SIGABRT: Process abort signal"
  else if signum = SIGALRM then "SIGALRM: Alarm clock"
  else if signum = SIGBUS then
    (if sigcode = BUS_ADRALN then
      "SIGBUS: Access to an undefined portion of a memory object: Invalid address alignment"
    else if sigcode = BUS_ADRERR then
      "SIGBUS: Access to an undefined portion of a memory object: Nonexistent physical address"
    else if sigcode = BUS_OBJERR then
      "SIGBUS: Access to an undefined portion of a memory object: Object-specific hardware error"
    else
      "SIGBUS: Access to an undefined portion of a memory object")
  else if signum = SIGCHLD then
    (if sigcode = CLD_EXITED then
      "SIGCHLD: Child process terminated, stopped, or continued: Child has exited"
    else if sigcode = CLD_KILLED then
      "SIGCHLD: Child process terminated, stopped, or continued: Child has terminated abnormally and did not create a core file"
    else if sigcode = CLD_DUMPED then
      "SIGCHLD: Child process terminated, stopped, or continued: Child has terminated abnormally and created a core file"
    else if sigcode = CLD_TRAPPED then
      "SIGCHLD: Child process terminated, stopped, or continued: Traced child has trapped"
    else if sigcode = CLD_STOPPED then
      "SIGCHLD: Child process terminated, stopped, or continued: Child has stopped"
    else if sigcode = CLD_CONTINUED then
      "SIGCHLD: Child process terminated, stopped, or continued: Stopped child has continued"
    else
      -- No `default` in the inner switch: control falls through into the
      -- `case SIGCONT:` label of the outer switch.
      "SIGCONT: Continue executing, if stopped")
  else if signum = SIGCONT then "SIGCONT: Continue executing, if stopped"
  else if signum = SIGFPE then
    (if sigcode = FPE_INTDIV then
      "SIGFPE: Erroneous arithmetic operation: Integer divide by zero"
    else if sigcode = FPE_INTOVF then
      "SIGFPE: Erroneous arithmetic operation: Integer overflow"
    else if sigcode = FPE_FLTDIV then
      "SIGFPE: Erroneous arithmetic operation: Floating-point divide by zero"
    else if sigcode = FPE_FLTOVF then
      "SIGFPE: Erroneous arithmetic operation: Floating-point overflow"
    else if sigcode = FPE_FLTUND then
      "SIGFPE: Erroneous arithmetic operation: Floating-point underflow"
    else if sigcode = FPE_FLTRES then
      "SIGFPE: Erroneous arithmetic operation: Floating-point inexact result"
    else if sigcode = FPE_FLTINV then
      "SIGFPE: Erroneous arithmetic operation: Invalid floating-point operation"
    else if sigcode = FPE_FLTSUB then
      "SIGFPE: Erroneous arithmetic operation: Subscript out of range"
    else
      "SIGFPE: Erroneous arithmetic operation")
  else if signum = SIGHUP then "SIGHUP: Hangup"
  else if signum = SIGILL then
    (if sigcode = ILL_ILLOPC then "SIGILL: Illegal instruction: Illegal opcode"
    else if sigcode = ILL_ILLOPN then "SIGILL: Illegal instruction: Illegal operand"
    else if sigcode = ILL_ILLADR then "SIGILL: Illegal instruction: Illegal addressing mode"
    else if sigcode = ILL_ILLTRP then "SIGILL: Illegal instruction: Illegal trap"
    else if sigcode = ILL_PRVOPC then "SIGILL: Illegal instruction: Privileged opcode"
    else if sigcode = ILL_PRVREG then "SIGILL: Illegal instruction: Privileged register"
    else if sigcode = ILL_COPROC then "SIGILL: Illegal instruction: Coprocessor error"
    else if sigcode = ILL_BADSTK then "SIGILL: Illegal instruction: Internal stack error"
    else "SIGILL: Illegal instruction")
  else if signum = SIGINT then "SIGINT: Terminal interrupt signal"
  else if signum = SIGKILL then "SIGKILL: Kill"
  else if signum = SIGPIPE then "SIGPIPE: Write on a pipe with no one to read it"
  else if signum = SIGQUIT then "SIGQUIT: Terminal quit signal"
  else if signum = SIGSEGV then
    (if sigcode = SEGV_MAPERR then
      "SIGSEGV: Invalid memory reference: Address not mapped to object"
    else if sigcode = SEGV_ACCERR then
      "SIGSEGV: Invalid memory reference: Invalid permissions for mapped object"
    else
      "SIGSEGV: Invalid memory reference")
  else if signum = SIGSTOP then "SIGSTOP: Stop executing"
  else if signum = SIGTERM then "SIGTERM: Termination signal"
  else if signum = SIGTSTP then "SIGTSTP: Terminal stop signal"
  else if signum = SIGTTIN then "SIGTTIN: Background process attempting read"
  else if signum = SIGTTOU then "SIGTTOU: Background process attempting write"
  else if signum = SIGUSR1 then "SIGUSR1: User-defined signal 1"
  else if signum = SIGUSR2 then "SIGUSR2: User-defined signal 2"
  else if signum = SIGPOLL then
    (if sigcode = POLL_IN then "SIGPOLL: Pollable event: Data input available"
    else if sigcode = POLL_OUT then "SIGPOLL: Pollable event: Output buffers available"
    else if sigcode = POLL_MSG then "SIGPOLL: Pollable event: Input message available"
    else if sigcode = POLL_ERR then "SIGPOLL: Pollable event: I/O error"
    else if sigcode = POLL_PRI then "SIGPOLL: Pollable event: High priority input available"
    else if sigcode = POLL_HUP then "SIGPOLL: Pollable event: Device disconnected."
    else "SIGPOLL: Pollable event")
  else if signum = SIGPROF then "SIGPROF: Profiling timer expired"
  else if signum = SIGSYS then "SIGSYS: Bad system call"
  else if signum = SIGTRAP then
    (if sigcode = TRAP_BRKPT then "SIGTRAP: Trace/breakpoint trap: Process breakpoint"
    else if sigcode = TRAP_TRACE then "SIGTRAP: Trace/breakpoint trap: Process trace trap"
    else "SIGTRAP: Trace/breakpoint trap")
  else if signum = SIGURG then "SIGURG: High bandwidth data is available at a socket"
  else if signum = SIGVTALRM then "SIGVTALRM: Virtual timer expired"
  else if signum = SIGXCPU then "SIGXCPU: CPU time limit exceeded"
  else if signum = SIGXFSZ then "SIGXFSZ: File size limit exceeded"
  else "Unknown signal"

/-! ## Event traces

Observable effects of the fault-handling code, in program order.  `write`
calls on the dump file become `writeArtifact`; `printf` writes to the
process's standard output (`writeStdout`); the external-collaborator
calls `dbgDumpHeader`, `dbgDumpLog` and `backtrace_symbols_fd` become
dedicated events, as do the system calls the handler issues. -/

inductive Event
  | writeArtifact (s : String)
  | writeStdout (s : String)
  | writeStderr (s : String)
  | writePipe (fd : Nat) (s : String)
  | pipeCreated (rd wr : Nat)
  | forked (pid : Nat)
  | closeFd (fd : Nat)
  | fsyncFd (fd : Nat)
  | mkstempCreated (fd : Nat)
  | headerDumped (fd : Nat)
  | logDumped (fd : Nat)
  | backtraceSymbols (fd : Nat)
  | waitpidCalled (pid : Nat)
  | restoreHandler (sig : Int)
  | raiseSignal (sig : Int)
deriving DecidableEq

/-! ## The debugger orchestrator: `execGdb` (source lines 418-502)

The environment records what the operating system answers to the code:
whether the tool locator succeeded at startup (`programIsAvailable`,
`gdbIsAvailable`), the descriptor pair a successful `pipe(2)` call
returns (`none` models `pipe` returning -1), and the `fork(2)` result
(`none` models -1; `some pid` is the nonzero child pid `fork` returns in
the parent — the child's continuation `exec`s gdb and is a separate
process image, not part of the parent's trace). -/

structure GdbEnv where
  programIsAvailable : Bool
  gdbIsAvailable : Bool
  pipeResult : Option (Nat × Nat)
  forkResult : Option Nat
deriving DecidableEq

/-- In the parent process a successful `fork` never returns 0. -/
def GdbEnv.wf (env : GdbEnv) : Bool :=
  match env.forkResult with
  | some pid => 0 < pid
  | none => true

/-- Model of `execGdb(dumpFile, gdbWritePipe)`: returns the `fork` result (0 on
failure), the final value of `*gdbWritePipe` (threaded from `wp0`), and
the trace of effects. -/
def execGdb (env : GdbEnv) (wp0 : Nat) : Nat × Nat × List Event :=
  if !env.programIsAvailable || !env.gdbIsAvailable then
    (0, wp0,
      [Event.writeArtifact "No extended backtrace dumped:\n"]
        ++ (if !env.programIsAvailable then
              [Event.writeArtifact "- Program path not available\n"] else [])
        ++ (if !env.gdbIsAvailable then
              [Event.writeArtifact "- GDB not available\n"] else []))
  else
    match env.pipeResult with
    | none =>
      (0, wp0, [Event.writeArtifact "Pipe failed\n", Event.writeStdout "Pipe failed\n"])
    | some (rd, wr) =>
      match env.forkResult with
      | none =>
        (0, wp0,
          [Event.pipeCreated rd wr,
           Event.writeArtifact "Fork failed\n", Event.writeStdout "Fork failed\n",
           Event.closeFd rd, Event.closeFd wr])
      | some pid =>
        -- Parent branch (`pid != 0`): return the write end of the pipe.
        (pid, wr, [Event.pipeCreated rd wr, Event.forked pid])

/-- The fixed command script fed to gdb (source lines 523-533). -/
def gdbCommands : String :=
  "backtrace full\nframe 4\ndisassemble\ninfo registers\nquit\n"

/-- glibc `WIFEXITED`: low seven bits of the status word are zero. -/
def WIFEXITED (status : Nat) : Bool := status % 128 == 0

/-- glibc `WEXITSTATUS`: bits 8-15 of the status word. -/
def WEXITSTATUS (status : Nat) : Nat := status / 256 % 256

/-- Model of `gdbExtendedBacktrace(dumpFile)` (source lines 512-582).
`waitpidResult` is what `waitpid` reports: `none` models a -1 return,
`some status` a successful wait with raw status word `status`.  The
source leaves the local `gdbPipe` uninitialized before `execGdb` assigns
it; 0 stands for that junk value (it is only read on paths where it was
assigned). -/
def gdbExtendedBacktrace (env : GdbEnv) (waitpidResult : Option Nat) :
    Bool × List Event :=
  let r := execGdb env 0
  let pid := r.1
  let gdbPipe := r.2.1
  let ev := r.2.2
  if pid = 0 then (false, ev)
  else
    let ev2 := ev ++ [Event.writePipe gdbPipe gdbCommands, Event.fsyncFd gdbPipe]
    match waitpidResult with
    | none =>
      (false, ev2 ++ [Event.waitpidCalled pid, Event.closeFd gdbPipe,
                      Event.writeArtifact "GDB failed\n", Event.writeStdout "GDB failed\n"])
    | some status =>
      if !WIFEXITED status || WEXITSTATUS status != 0 then
        (false, ev2 ++ [Event.waitpidCalled pid, Event.closeFd gdbPipe,
                        Event.writeArtifact "GDB failed\n", Event.writeStdout "GDB failed\n"])
      else
        (true, ev2 ++ [Event.waitpidCalled pid, Event.closeFd gdbPipe])

/-! ## The fault responder: `posixExceptionHandler` (source lines 593-658) -/

structure HandlerEnv where
  /-- Value of the static `allreadyRunning` flag on entry. -/
  allreadyRunning : Bool
  /-- Whether the `__GLIBC__` arm (in-process `backtrace`) is compiled in. -/
  glibc : Bool
  /-- `mkstemp` result: `none` models -1, `some fd` a fresh descriptor. -/
  mkstempResult : Option Nat
  gdbEnv : GdbEnv
  waitpidResult : Option Nat
deriving DecidableEq

inductive Outcome
  | returnedNormally
  | reraised
deriving DecidableEq

/-- The fault responder.  Returns how the invocation ends and its trace.

Note on the guard (source lines 597-599): `raise(signum)` inside the
guard returns — the signal being handled is blocked for the duration of
the handler (no `SA_NODEFER`), so `raise` only marks it pending — and
there is no `return` statement after it, so control falls through into
the capture logic with `allreadyRunning` already set. -/
def posixExceptionHandler (env : HandlerEnv) (signum sigcode : Int) :
    Outcome × List Event :=
  let guardEv := if env.allreadyRunning then [Event.raiseSignal signum] else []
  -- allreadyRunning = 1; (glibc only) backtrace() fills btBuffer
  match env.mkstempResult with
  | none =>
    -- printf("Failed to create dump file ..."); return;
    (Outcome.returnedNormally, guardEv ++ [Event.writeStdout "Failed to create dump file"])
  | some dumpFile =>
    let captureEv :=
      [Event.mkstempCreated dumpFile,
       Event.headerDumped dumpFile,
       Event.writeArtifact "Dump caused by signal: ",
       Event.writeArtifact (wz_strsignal signum sigcode),
       Event.writeArtifact "\n\n",
       Event.logDumped dumpFile]
      ++ (if env.glibc then
            [Event.writeArtifact "GLIBC raw backtrace:\n",
             Event.backtraceSymbols dumpFile,
             Event.writeArtifact "\n"]
          else
            [Event.writeArtifact "GLIBC not available, no raw backtrace dumped\n\n"])
      ++ [Event.fsyncFd dumpFile]
    let gdbEv := (gdbExtendedBacktrace env.gdbEnv env.waitpidResult).2
    (Outcome.reraised,
      guardEv ++ captureEv ++ gdbEv
        ++ [Event.writeStdout "Saved dump file",
            Event.closeFd dumpFile,
            Event.restoreHandler signum,
            Event.raiseSignal signum])

/-! ## The registrar: `setFatalSignalHandler` (source lines 346-395)

Per-signal dispositions and the `oldAction` table are modelled as
functions from signal number to a sigaction record.  The source queries
the current disposition into `oldAction[sig]` with
`sigaction(sig, NULL, &oldAction[sig])`, then, unless the queried
handler is `SIG_IGN`, installs `new_handler` (the responder, with
`sa_flags = SA_SIGINFO`). -/

inductive CHandler
  | sigDfl
  | sigIgn
  | custom (n : Nat)
  | responder
deriving DecidableEq

structure SigactionRec where
  sa_handler : CHandler
  /-- Whether `SA_SIGINFO` is set in `sa_flags`. -/
  sa_siginfo : Bool
deriving DecidableEq

/-- The `new_handler` record as built at source lines 348-352. -/
def new_handler : SigactionRec := { sa_handler := CHandler.responder, sa_siginfo := true }

structure SigState where
  disposition : Int → SigactionRec
  oldAction : Int → SigactionRec

/-- One `sigaction`-query / conditional-install block of the source. -/
def installOne (sig : Int) (st : SigState) : SigState :=
  let st1 : SigState :=
    { st with oldAction := Function.update st.oldAction sig (st.disposition sig) }
  if (st.disposition sig).sa_handler ≠ CHandler.sigIgn then
    { st1 with disposition := Function.update st1.disposition sig new_handler }
  else st1

/-- The fatal set, in source order (the `_XOPEN_UNIX` arm is compiled in
on the targeted platform). -/
def fatalSignals : List Int :=
  [SIGABRT, SIGBUS, SIGFPE, SIGILL, SIGQUIT, SIGSEGV,
   SIGSYS, SIGTRAP, SIGXCPU, SIGXFSZ]

def setFatalSignalHandler (st : SigState) : SigState :=
  installOne SIGXFSZ (installOne SIGXCPU (installOne SIGTRAP (installOne SIGSYS
    (installOne SIGSEGV (installOne SIGQUIT (installOne SIGILL (installOne SIGFPE
      (installOne SIGBUS (installOne SIGABRT st)))))))))

/-- A process whose signals all start at the OS default disposition. -/
def allDflState : SigState :=
  { disposition := fun _ => { sa_handler := CHandler.sigDfl, sa_siginfo := false }
    oldAction := fun _ => { sa_handler := CHandler.sigDfl, sa_siginfo := false } }

/-! ## The tool locator: `fetchProgramPath` (source lines 664-705)

Bytes are modelled as `Nat` (0 is NUL, 10 is the linefeed).  `readBytes`
is the output of the `which` command as returned by `fread` into the
`bufSize`-byte buffer, so `readBytes.length` is `bytesRead` and never
exceeds `bufSize`.  The buffer itself is modelled explicitly so that the
`memset`-backed NUL-termination and the in-place `*linefeed = '\0'`
truncation are visible. -/

/-- Byte is not the NUL terminator (the predicate `strlen` and C strings
are built on). -/
def isNonNul (x : Nat) : Bool := x != 0

/-- Byte is not the linefeed. -/
def isNonLF (x : Nat) : Bool := x != 10

/-- Model of `strchr` on a byte list: index of the first occurrence of `c`. -/
def strchrIdx (l : List Nat) (c : Nat) : Option Nat :=
  match l with
  | [] => none
  | a :: t => if a = c then some 0 else (strchrIdx t c).map (· + 1)

/-- The buffer contents after `memset(programPath, 0, bufSize)` followed
by the `fread` that deposits `readBytes`. -/
def fppBuf0 (readBytes : List Nat) (bufSize : Nat) : List Nat :=
  readBytes ++ List.replicate (bufSize - readBytes.length) 0

/-- The buffer after `linefeed = strchr(programPath, '\n');
if (linefeed) *linefeed = '\0';` — `strchr` scans the C string (the
prefix up to the first NUL) and the found byte is overwritten in
place. -/
def fppBuf1 (readBytes : List Nat) (bufSize : Nat) : List Nat :=
  match strchrIdx ((fppBuf0 readBytes bufSize).takeWhile isNonNul) 10 with
  | some i => (fppBuf0 readBytes bufSize).set i 0
  | none => fppBuf0 readBytes bufSize

/-- Returns the source function's boolean result together with the final
contents of the caller's buffer.  The stored C string is the buffer's
prefix up to the first NUL, `List.takeWhile isNonNul`.  The two `false`
returns mirror the `bytesRead == bufSize` and `strlen(programPath) == 0`
checks of the source. -/
def fetchProgramPath (readBytes : List Nat) (bufSize : Nat) : Bool × List Nat :=
  if readBytes.length = bufSize then (false, fppBuf0 readBytes bufSize)
  else if (fppBuf1 readBytes bufSize).takeWhile isNonNul = [] then
    (false, fppBuf1 readBytes bufSize)
  else (true, fppBuf1 readBytes bufSize)

/-! ## Classification helpers for stating trace properties -/

/-- The labelled sections of the dump artifact, as the spec lists them. -/
inductive DumpSection
  | header
  | description
  | recentLog
  | rawBacktrace
  | rawUnavailable
deriving DecidableEq

/-- Maps a trace event to the artifact section it opens, if any: the
`dbgDumpHeader` call opens the header block, the
`"Dump caused by signal: "` label opens the rendered fault description,
the `dbgDumpLog` call opens the recent-log block, and the fourth section
is either the `backtrace_symbols_fd` call or the explicit
glibc-unavailable note. -/
def sectionOf : Event → Option DumpSection
  | Event.headerDumped _ => some DumpSection.header
  | Event.writeArtifact s =>
      if s = "Dump caused by signal: " then some DumpSection.description
      else if s = "GLIBC not available, no raw backtrace dumped\n\n" then
        some DumpSection.rawUnavailable
      else none
  | Event.logDumped _ => some DumpSection.recentLog
  | Event.backtraceSymbols _ => some DumpSection.rawBacktrace
  | _ => none

/-- Events that restore a handler or (re-)raise a signal. -/
def Event.isReRaise : Event → Bool
  | Event.restoreHandler _ => true
  | Event.raiseSignal _ => true
  | _ => false

/-- An event that neither touches signal dispositions nor opens an
artifact section; every event of the debugger orchestrator is such. -/
def ctlFree (e : Event) : Bool := ! e.isReRaise && (sectionOf e).isNone

/-- A second fault delivered while the first is being handled: the
`allreadyRunning` flag is already set on entry; `/tmp` is writable and
gdb is spawnable. -/
def secondFaultEnv : HandlerEnv :=
  { allreadyRunning := true
    glibc := true
    mkstempResult := some 5
    gdbEnv :=
      { programIsAvailable := true
        gdbIsAvailable := true
        pipeResult := some (6, 7)
        forkResult := some 1234 }
    waitpidResult := some 0 }

/-- First fault, but the artifact directory is unwritable: `mkstemp`
returns -1. -/
def unwritableTmpEnv : HandlerEnv :=
  { allreadyRunning := false
    glibc := true
    mkstempResult := none
    gdbEnv :=
      { programIsAvailable := true
        gdbIsAvailable := true
        pipeResult := none
        forkResult := none }
    waitpidResult := none }

/-- A successfully spawned debugger child whose `waitpid` call then
fails (returns -1). -/
def gdbWaitFailEnv : GdbEnv :=
  { programIsAvailable := true
    gdbIsAvailable := true
    pipeResult := some (3, 4)
    forkResult := some 42 }

/-! ## Helper lemmas -/

lemma ite_ne_of_ne {α : Type} {c : Prop} [Decidable c] {a b x : α}
    (ha : a ≠ x) (hb : b ≠ x) : (if c then a else b) ≠ x := by
  split
  · exact ha
  · exact hb

lemma execGdb_ctlFree (genv : GdbEnv) (wp0 : Nat) :
    ((execGdb genv wp0).2.2).all ctlFree = true := by
  rcases genv with ⟨p, g, pr, fr⟩
  cases p <;> cases g <;> rcases pr with _ | ⟨rd, wr⟩ <;> rcases fr with _ | pid <;>
    simp [execGdb, ctlFree, Event.isReRaise, sectionOf]

lemma gdbExtendedBacktrace_ctlFree (genv : GdbEnv) (w : Option Nat) :
    ((gdbExtendedBacktrace genv w).2).all ctlFree = true := by
  unfold gdbExtendedBacktrace
  by_cases h : (execGdb genv 0).1 = 0
  · simpa [h] using execGdb_ctlFree genv 0
  · have hall := execGdb_ctlFree genv 0
    rcases w with _ | st
    · simp [h, List.all_append, hall, ctlFree, Event.isReRaise, sectionOf]
    · by_cases hc : (!WIFEXITED st || WEXITSTATUS st != 0) = true
      · simp [h, hc, List.all_append, hall, ctlFree, Event.isReRaise, sectionOf]
      · simp [h, hc, List.all_append, hall, ctlFree, Event.isReRaise, sectionOf]

lemma gdbExtendedBacktrace_no_reraise (genv : GdbEnv) (w : Option Nat) (e : Event)
    (he : e ∈ (gdbExtendedBacktrace genv w).2) : e.isReRaise = false := by
  have h := List.all_eq_true.mp (gdbExtendedBacktrace_ctlFree genv w) e he
  simp [ctlFree] at h
  exact h.1

lemma gdbExtendedBacktrace_filterMap_sectionOf (genv : GdbEnv) (w : Option Nat) :
    ((gdbExtendedBacktrace genv w).2).filterMap sectionOf = [] := by
  rw [List.filterMap_eq_nil_iff]
  intro e he
  have h := List.all_eq_true.mp (gdbExtendedBacktrace_ctlFree genv w) e he
  simp [ctlFree] at h
  exact h.2

lemma gdbExtendedBacktrace_restore_not_mem (genv : GdbEnv) (w : Option Nat) (s : Int) :
    Event.restoreHandler s ∉ (gdbExtendedBacktrace genv w).2 := by
  intro hm
  have h := gdbExtendedBacktrace_no_reraise genv w _ hm
  simp [Event.isReRaise] at h

lemma gdbExtendedBacktrace_raise_not_mem (genv : GdbEnv) (w : Option Nat) (s : Int) :
    Event.raiseSignal s ∉ (gdbExtendedBacktrace genv w).2 := by
  intro hm
  have h := gdbExtendedBacktrace_no_reraise genv w _ hm
  simp [Event.isReRaise] at h

lemma sectionOf_label :
    sectionOf (Event.writeArtifact "Dump caused by signal: ")
      = some DumpSection.description := by decide

lemma sectionOf_glibc_note :
    sectionOf (Event.writeArtifact "GLIBC not available, no raw backtrace dumped\n\n")
      = some DumpSection.rawUnavailable := by decide

lemma sectionOf_blank : sectionOf (Event.writeArtifact "\n\n") = none := by decide

lemma sectionOf_bt_label :
    sectionOf (Event.writeArtifact "GLIBC raw backtrace:\n") = none := by decide

lemma sectionOf_nl : sectionOf (Event.writeArtifact "\n") = none := by decide

set_option maxRecDepth 8000 in
/-- The classifier never returns the string the responder uses to label
the fault-description section. -/
lemma wz_strsignal_ne_label (signum sigcode : Int) :
    wz_strsignal signum sigcode ≠ "Dump caused by signal: " := by
  unfold wz_strsignal
  repeat' apply ite_ne_of_ne
  all_goals decide

set_option maxRecDepth 8000 in
/-- The classifier never returns the glibc-unavailable note. -/
lemma wz_strsignal_ne_glibc_note (signum sigcode : Int) :
    wz_strsignal signum sigcode
      ≠ "GLIBC not available, no raw backtrace dumped\n\n" := by
  unfold wz_strsignal
  repeat' apply ite_ne_of_ne
  all_goals decide

/-- The write of the rendered description itself does not register as
opening a section. -/
lemma sectionOf_wz_strsignal (signum sigcode : Int) :
    sectionOf (Event.writeArtifact (wz_strsignal signum sigcode)) = none := by
  simp [sectionOf, wz_strsignal_ne_label signum sigcode,
    wz_strsignal_ne_glibc_note signum sigcode]

lemma isNonNul_eq (a : Nat) : isNonNul a = !decide (a = 0) := by
  by_cases h : a = 0 <;> simp [isNonNul, h]

lemma isNonLF_eq (a : Nat) : isNonLF a = !decide (a = 10) := by
  by_cases h : a = 10 <;> simp [isNonLF, h]

/-- The zero fill behind the read bytes terminates the C string: taking
the non-NUL prefix of the whole buffer is taking it of the read bytes. -/
lemma takeWhile_append_zero (l t : List Nat) :
    ((l ++ 0 :: t).takeWhile isNonNul) = l.takeWhile isNonNul := by
  induction l with
  | nil => simp [List.takeWhile_cons, isNonNul]
  | cons a l ih =>
    by_cases ha : a = 0 <;>
      simp [List.takeWhile_cons, isNonNul_eq, ha, ih]

/-- Overwriting the first linefeed of the C string with NUL truncates
the C string exactly at that linefeed. -/
lemma trunc_takeWhile (l : List Nat) :
    ((match strchrIdx (l.takeWhile isNonNul) 10 with
      | some i => l.set i 0
      | none => l).takeWhile isNonNul)
      = (l.takeWhile isNonNul).takeWhile isNonLF := by
  induction l with
  | nil => simp [strchrIdx]
  | cons a l ih =>
    by_cases ha : a = 0
    · subst ha
      simp [List.takeWhile_cons, strchrIdx, isNonNul_eq]
    · by_cases ha10 : a = 10
      · subst ha10
        simp [List.takeWhile_cons, strchrIdx, isNonNul_eq, isNonLF_eq]
      · have hA : isNonNul a = true := by simp [isNonNul_eq, ha]
        have hA10 : isNonLF a = true := by simp [isNonLF_eq, ha10]
        rw [List.takeWhile_cons, if_pos hA]
        cases hidx : strchrIdx (l.takeWhile isNonNul) 10 with
        | none =>
          have hs : strchrIdx (a :: l.takeWhile isNonNul) 10 = none := by
            simp [strchrIdx, ha10, hidx]
          rw [hs]
          rw [List.takeWhile_cons, if_pos hA, List.takeWhile_cons, if_pos hA10]
          congr 1
          have h := ih
          rw [hidx] at h
          exact h
        | some i =>
          have hs : strchrIdx (a :: l.takeWhile isNonNul) 10 = some (i + 1) := by
            simp [strchrIdx, ha10, hidx]
          rw [hs]
          show (a :: l.set i 0).takeWhile isNonNul = _
          rw [List.takeWhile_cons, if_pos hA, List.takeWhile_cons, if_pos hA10]
          congr 1
          have h := ih
          rw [hidx] at h
          exact h

/-- If the buffer still has bytes past its C string, the byte right
after the C string is NUL. -/
lemma dropWhile_nonNul_head (l : List Nat) (h : l.dropWhile isNonNul ≠ []) :
    (l.dropWhile isNonNul).head? = some 0 := by
  induction l with
  | nil => simp at h
  | cons a l ih =>
    by_cases ha : a = 0
    · subst ha; simp [List.dropWhile_cons, isNonNul]
    · simp only [List.dropWhile_cons, isNonNul_eq, ha, decide_False,
        Bool.not_false, if_true] at h ⊢
      exact ih h

lemma installOne_disposition_other (sig s : Int) (st : SigState) (h : s ≠ sig) :
    (installOne sig st).disposition s = st.disposition s := by
  unfold installOne
  split <;> simp [Function.update_noteq h]

lemma installOne_oldAction_other (sig s : Int) (st : SigState) (h : s ≠ sig) :
    (installOne sig st).oldAction s = st.oldAction s := by
  unfold installOne
  split <;> simp [Function.update_noteq h]

lemma installOne_oldAction_self (sig : Int) (st : SigState) :
    (installOne sig st).oldAction sig = st.disposition sig := by
  unfold installOne
  split <;> simp [Function.update_same]

lemma installOne_disposition_self (sig : Int) (st : SigState) :
    (installOne sig st).disposition sig
      = if (st.disposition sig).sa_handler = CHandler.sigIgn then st.disposition sig
        else new_handler := by
  unfold installOne
  by_cases h : (st.disposition sig).sa_handler = CHandler.sigIgn <;>
    simp [h, Function.update_same]

lemma fppBuf0_length (readBytes : List Nat) (bufSize : Nat)
    (hle : readBytes.length ≤ bufSize) :
    (fppBuf0 readBytes bufSize).length = bufSize := by
  simp [fppBuf0]
  omega

lemma fppBuf1_length (readBytes : List Nat) (bufSize : Nat)
    (hle : readBytes.length ≤ bufSize) :
    (fppBuf1 readBytes bufSize).length = bufSize := by
  unfold fppBuf1
  cases strchrIdx ((fppBuf0 readBytes bufSize).takeWhile isNonNul) 10 <;>
    simp [List.length_set, fppBuf0_length readBytes bufSize hle]

lemma fppBuf0_takeWhile (readBytes : List Nat) (bufSize : Nat)
    (hlt : readBytes.length < bufSize) :
    (fppBuf0 readBytes bufSize).takeWhile isNonNul
      = readBytes.takeWhile isNonNul := by
  obtain ⟨k, hk⟩ : ∃ k, bufSize - readBytes.length = k + 1 :=
    ⟨bufSize - readBytes.length - 1, by omega⟩
  unfold fppBuf0
  rw [hk, List.replicate_succ, takeWhile_append_zero]

/-- The C string stored in the final buffer is the read bytes up to the
first NUL, truncated at the first linefeed. -/
lemma fppBuf1_takeWhile (readBytes : List Nat) (bufSize : Nat)
    (hlt : readBytes.length < bufSize) :
    (fppBuf1 readBytes bufSize).takeWhile isNonNul
      = (readBytes.takeWhile isNonNul).takeWhile isNonLF := by
  have h := trunc_takeWhile (fppBuf0 readBytes bufSize)
  rw [fppBuf0_takeWhile readBytes bufSize hlt] at h
  unfold fppBuf1
  rw [fppBuf0_takeWhile readBytes bufSize hlt]
  exact h

/-! ## Claim theorems -/

/-- C1: the claim says a fault delivered while `allreadyRunning` is set
re-raises the signal and does not execute the capture logic, so no
second artifact is created and no second debugger is spawned.  The code
violates this: `raise(signum)` in the guard is not followed by a
`return`, so after re-raising (first trace event) the invocation falls
through and still creates an artifact (`mkstempCreated`) and forks a
debugger (`forked`). -/
theorem C1_reentrant_fault_still_captures :
    ((posixExceptionHandler secondFaultEnv SIGSEGV SEGV_MAPERR).2).head?
        = some (Event.raiseSignal SIGSEGV)
    ∧ Event.mkstempCreated 5 ∈ (posixExceptionHandler secondFaultEnv SIGSEGV SEGV_MAPERR).2
    ∧ Event.forked 1234 ∈ (posixExceptionHandler secondFaultEnv SIGSEGV SEGV_MAPERR).2
    ∧ (posixExceptionHandler secondFaultEnv SIGSEGV SEGV_MAPERR).1 = Outcome.reraised := by
  decide

/-- C2: the claim says the responder never returns normally and always
ends by re-raising the original signal, including when `mkstemp` fails.
The code violates this: on `mkstemp` failure it prints a message and
executes `return;` — its whole trace is the single `printf`, containing
neither a `restoreHandler` nor a `raiseSignal` event, and the invocation
ends by returning normally to the faulting context. -/
theorem C2_mkstemp_failure_returns_normally :
    (posixExceptionHandler unwritableTmpEnv SIGSEGV SEGV_MAPERR).1
        = Outcome.returnedNormally
    ∧ (posixExceptionHandler unwritableTmpEnv SIGSEGV SEGV_MAPERR).2
        = [Event.writeStdout "Failed to create dump file"] := by
  decide

/-- C3: the claim says every (signal, code) pair with no specific mapping
falls back to "Unknown signal", in particular a pair whose signal has
sub-cause cases but whose code matches none of them.  The code violates
this for `SIGCHLD`: its inner `switch` has no `default`, so an unmapped
code (here `si_code = 0`, i.e. `SI_USER`) falls through into the
`SIGCONT` case and returns another signal's description.  The
`(SIGSEGV, SEGV_MAPERR)` mapping required by the claim does hold. -/
theorem C3_sigchld_falls_through_to_sigcont :
    wz_strsignal SIGCHLD 0 = "SIGCONT: Continue executing, if stopped"
    ∧ wz_strsignal SIGCHLD 0 ≠ "Unknown signal"
    ∧ wz_strsignal SIGSEGV SEGV_MAPERR
        = "SIGSEGV: Invalid memory reference: Address not mapped to object" := by
  decide

/-- C6 counterexample: the claim says a failure is logged with a
"GDB failed" note written both into the artifact and to standard error.
On a concrete failing run (child spawned, `waitpid` returns -1) the note
goes to the artifact and — via `printf` — to standard output; nothing is
ever written to standard error. -/
theorem C6_counterexample_no_stderr_note :
    (gdbExtendedBacktrace gdbWaitFailEnv none).1 = false
    ∧ Event.writeArtifact "GDB failed\n" ∈ (gdbExtendedBacktrace gdbWaitFailEnv none).2
    ∧ Event.writeStderr "GDB failed\n" ∉ (gdbExtendedBacktrace gdbWaitFailEnv none).2 := by
  decide

/-- C4: if the program path or the debugger path was not resolved at
startup, `gdbExtendedBacktrace` returns failure, the artifact receives
exactly the "No extended backtrace dumped:" note followed by the
applicable "- Program path not available" / "- GDB not available"
lines, and no pipe is created and no process is forked (hence nothing
is ever exec'd, since exec only happens in a forked child). -/
theorem C4_missing_tool_no_spawn (genv : GdbEnv) (w : Option Nat)
    (h : genv.programIsAvailable = false ∨ genv.gdbIsAvailable = false) :
    (gdbExtendedBacktrace genv w).1 = false
    ∧ (gdbExtendedBacktrace genv w).2
        = [Event.writeArtifact "No extended backtrace dumped:\n"]
          ++ (if genv.programIsAvailable = false then
                [Event.writeArtifact "- Program path not available\n"] else [])
          ++ (if genv.gdbIsAvailable = false then
                [Event.writeArtifact "- GDB not available\n"] else [])
    ∧ (∀ rd wr, Event.pipeCreated rd wr ∉ (gdbExtendedBacktrace genv w).2)
    ∧ (∀ pid, Event.forked pid ∉ (gdbExtendedBacktrace genv w).2) := by
  rcases genv with ⟨p, g, pr, fr⟩
  cases p <;> cases g <;> simp_all [gdbExtendedBacktrace, execGdb]

/-- C4 witness: gdb unresolved at startup, program path resolved. -/
theorem C4_witness :
    (gdbExtendedBacktrace ⟨true, false, none, none⟩ none).1 = false
    ∧ (gdbExtendedBacktrace ⟨true, false, none, none⟩ none).2
        = [Event.writeArtifact "No extended backtrace dumped:\n"]
          ++ (if (true : Bool) = false then
                [Event.writeArtifact "- Program path not available\n"] else [])
          ++ (if (false : Bool) = false then
                [Event.writeArtifact "- GDB not available\n"] else [])
    ∧ (∀ rd wr, Event.pipeCreated rd wr ∉ (gdbExtendedBacktrace ⟨true, false, none, none⟩ none).2)
    ∧ (∀ pid, Event.forked pid ∉ (gdbExtendedBacktrace ⟨true, false, none, none⟩ none).2) :=
  C4_missing_tool_no_spawn ⟨true, false, none, none⟩ none (Or.inr rfl)

/-- C5: on a completed capture episode (first fault, `mkstemp`
succeeded) the responder ends by closing the artifact, then restoring
the signal's `oldAction` entry, then re-raising the same signal; the
restore and the re-raise occur exactly once, at the very end, after the
artifact is closed — so a previously-installed handler is re-invoked
exactly once, after the artifact has been written and closed. -/
theorem C5_restore_then_reraise (env : HandlerEnv) (signum sigcode : Int) (fd : Nat)
    (h1 : env.allreadyRunning = false) (h2 : env.mkstempResult = some fd) :
    (posixExceptionHandler env signum sigcode).1 = Outcome.reraised
    ∧ ∃ t, (posixExceptionHandler env signum sigcode).2
          = t ++ [Event.closeFd fd, Event.restoreHandler signum, Event.raiseSignal signum]
        ∧ Event.restoreHandler signum ∉ t
        ∧ Event.raiseSignal signum ∉ t := by
  constructor
  · simp [posixExceptionHandler, h1, h2]
  · refine ⟨([Event.mkstempCreated fd,
       Event.headerDumped fd,
       Event.writeArtifact "Dump caused by signal: ",
       Event.writeArtifact (wz_strsignal signum sigcode),
       Event.writeArtifact "\n\n",
       Event.logDumped fd]
      ++ (if env.glibc then
            [Event.writeArtifact "GLIBC raw backtrace:\n",
             Event.backtraceSymbols fd,
             Event.writeArtifact "\n"]
          else
            [Event.writeArtifact "GLIBC not available, no raw backtrace dumped\n\n"])
      ++ [Event.fsyncFd fd])
      ++ (gdbExtendedBacktrace env.gdbEnv env.waitpidResult).2
      ++ [Event.writeStdout "Saved dump file"], ?_, ?_, ?_⟩
    · cases hg : env.glibc <;>
        simp [posixExceptionHandler, h1, h2, hg, List.append_assoc]
    · cases hg : env.glibc <;>
        simp [hg, gdbExtendedBacktrace_restore_not_mem]
    · cases hg : env.glibc <;>
        simp [hg, gdbExtendedBacktrace_raise_not_mem]

/-- C5 witness: a concrete completed capture episode. -/
theorem C5_witness :
    (posixExceptionHandler
        { allreadyRunning := false
          glibc := false
          mkstempResult := some 5
          gdbEnv := ⟨false, false, none, none⟩
          waitpidResult := none } SIGABRT 0).1 = Outcome.reraised
    ∧ ∃ t, (posixExceptionHandler
        { allreadyRunning := false
          glibc := false
          mkstempResult := some 5
          gdbEnv := ⟨false, false, none, none⟩
          waitpidResult := none } SIGABRT 0).2
          = t ++ [Event.closeFd 5, Event.restoreHandler SIGABRT, Event.raiseSignal SIGABRT]
        ∧ Event.restoreHandler SIGABRT ∉ t
        ∧ Event.raiseSignal SIGABRT ∉ t :=
  C5_restore_then_reraise _ SIGABRT 0 5 rfl rfl

/-- C6 (amended): given a child was actually spawned, the orchestrator
returns success exactly when `waitpid` succeeded and the child exited
normally (`WIFEXITED`) with exit status zero; on failure a "GDB failed"
note is written into the artifact and — via `printf` — to standard
output (not standard error, as the original claim said). -/
theorem C6_exit_status_mapping (genv : GdbEnv) (w : Option Nat)
    (h : (execGdb genv 0).1 ≠ 0) :
    ((gdbExtendedBacktrace genv w).1 = true ↔
      ∃ st, w = some st ∧ WIFEXITED st = true ∧ WEXITSTATUS st = 0)
    ∧ ((gdbExtendedBacktrace genv w).1 = false →
        Event.writeArtifact "GDB failed\n" ∈ (gdbExtendedBacktrace genv w).2
        ∧ Event.writeStdout "GDB failed\n" ∈ (gdbExtendedBacktrace genv w).2) := by
  rcases w with _ | st
  · simp [gdbExtendedBacktrace, h]
  · by_cases h1 : WIFEXITED st = true
    · by_cases h2 : WEXITSTATUS st = 0
      · simp [gdbExtendedBacktrace, h, h1, h2]
      · simp [gdbExtendedBacktrace, h, h1, h2]
    · simp [gdbExtendedBacktrace, h, h1]

/-- C6 witness: child spawned, exited normally with status 0. -/
theorem C6_witness :
    (execGdb ⟨true, true, some (3, 4), some 42⟩ 0).1 ≠ 0
    ∧ (gdbExtendedBacktrace ⟨true, true, some (3, 4), some 42⟩ (some 0)).1 = true :=
  ⟨by decide,
   ((C6_exit_status_mapping ⟨true, true, some (3, 4), some 42⟩ (some 0)
      (by decide)).1).mpr ⟨0, rfl, by decide, by decide⟩⟩

/-- C7: on a completed capture episode the artifact's sections appear in
exactly the order: header block, rendered fault description, recent
buffered log lines, then either the raw in-process backtrace (glibc
available) or the explicit no-raw-backtrace note. -/
theorem C7_section_order (env : HandlerEnv) (signum sigcode : Int) (fd : Nat)
    (h1 : env.allreadyRunning = false) (h2 : env.mkstempResult = some fd) :
    ((posixExceptionHandler env signum sigcode).2).filterMap sectionOf
      = [DumpSection.header, DumpSection.description, DumpSection.recentLog]
        ++ (if env.glibc then [DumpSection.rawBacktrace]
            else [DumpSection.rawUnavailable]) := by
  cases hg : env.glibc <;>
    simp [posixExceptionHandler, h1, h2, hg, List.filterMap_append,
      gdbExtendedBacktrace_filterMap_sectionOf,
      wz_strsignal_ne_label, wz_strsignal_ne_glibc_note, sectionOf]

/-- C7 witness. -/
theorem C7_witness :
    ((posixExceptionHandler
        { allreadyRunning := false
          glibc := true
          mkstempResult := some 5
          gdbEnv := ⟨true, true, some (6, 7), some 9⟩
          waitpidResult := some 0 } SIGSEGV SEGV_MAPERR).2).filterMap sectionOf
      = [DumpSection.header, DumpSection.description, DumpSection.recentLog]
        ++ (if (true : Bool) then [DumpSection.rawBacktrace]
            else [DumpSection.rawUnavailable]) :=
  C7_section_order _ SIGSEGV SEGV_MAPERR 5 rfl rfl

/-- C10: whenever `execGdb` returns 0 (precondition unmet, pipe failed,
or fork failed) the out-parameter `*gdbWritePipe` keeps its prior value
and any pipe descriptors created during the attempt have matching
`close` events; a nonzero return happens only on the parent-side success
path, where `*gdbWritePipe` receives the pipe's write end. -/
theorem C10_execGdb_frame (genv : GdbEnv) (wp0 : Nat) (hwf : genv.wf = true) :
    ((execGdb genv wp0).1 = 0 →
      (execGdb genv wp0).2.1 = wp0
      ∧ ∀ rd wr, Event.pipeCreated rd wr ∈ (execGdb genv wp0).2.2 →
          Event.closeFd rd ∈ (execGdb genv wp0).2.2
          ∧ Event.closeFd wr ∈ (execGdb genv wp0).2.2)
    ∧ ((execGdb genv wp0).1 ≠ 0 →
        ∃ rd wr, genv.pipeResult = some (rd, wr)
          ∧ (execGdb genv wp0).2.1 = wr) := by
  rcases genv with ⟨p, g, pr, fr⟩
  cases p <;> cases g <;> rcases pr with _ | ⟨rd, wr⟩ <;> rcases fr with _ | pid <;>
    (simp_all [execGdb, GdbEnv.wf]; try omega)

/-- C10 witness: fork fails after a successful pipe creation. -/
theorem C10_witness :
    GdbEnv.wf ⟨true, true, some (3, 4), none⟩ = true
    ∧ ((execGdb ⟨true, true, some (3, 4), none⟩ 7).1 = 0 →
        (execGdb ⟨true, true, some (3, 4), none⟩ 7).2.1 = 7
        ∧ ∀ rd wr,
            Event.pipeCreated rd wr ∈ (execGdb ⟨true, true, some (3, 4), none⟩ 7).2.2 →
              Event.closeFd rd ∈ (execGdb ⟨true, true, some (3, 4), none⟩ 7).2.2
              ∧ Event.closeFd wr ∈ (execGdb ⟨true, true, some (3, 4), none⟩ 7).2.2)
    ∧ ((execGdb ⟨true, true, some (3, 4), none⟩ 7).1 ≠ 0 →
        ∃ rd wr, (GdbEnv.mk true true (some (3, 4)) none).pipeResult = some (rd, wr)
          ∧ (execGdb ⟨true, true, some (3, 4), none⟩ 7).2.1 = wr) :=
  ⟨by decide, C10_execGdb_frame ⟨true, true, some (3, 4), none⟩ 7 (by decide)⟩

/-- C9: the locator returns false exactly when the command-resolution
output completely fills the buffer or, after truncating the stored C
string at the first linefeed, the result is empty; when it returns true
the stored C string equals the read bytes truncated at the first
linefeed, is non-empty, contains no linefeed (trailing newline removed),
and is NUL-terminated (the buffer byte right after it is 0). -/
theorem C9_fetchProgramPath_spec (readBytes : List Nat) (bufSize : Nat)
    (hle : readBytes.length ≤ bufSize) :
    ((fetchProgramPath readBytes bufSize).1 = false ↔
      readBytes.length = bufSize
      ∨ (readBytes.takeWhile isNonNul).takeWhile isNonLF = [])
    ∧ ((fetchProgramPath readBytes bufSize).1 = true →
        (fetchProgramPath readBytes bufSize).2.takeWhile isNonNul
            = (readBytes.takeWhile isNonNul).takeWhile isNonLF
        ∧ (fetchProgramPath readBytes bufSize).2.takeWhile isNonNul ≠ []
        ∧ (10 : Nat) ∉ (fetchProgramPath readBytes bufSize).2.takeWhile isNonNul
        ∧ ((fetchProgramPath readBytes bufSize).2.dropWhile isNonNul).head?
            = some 0) := by
  by_cases hfull : readBytes.length = bufSize
  · simp [fetchProgramPath, hfull]
  · have hlt : readBytes.length < bufSize := by omega
    have htw := fppBuf1_takeWhile readBytes bufSize hlt
    by_cases htrim : (readBytes.takeWhile isNonNul).takeWhile isNonLF = []
    · simp [fetchProgramPath, hfull, htw, htrim]
    · have hres : fetchProgramPath readBytes bufSize
          = (true, fppBuf1 readBytes bufSize) := by
        rw [fetchProgramPath, if_neg hfull, htw, if_neg htrim]
      rw [hres]
      refine ⟨by simp [hfull, htrim], fun _ => ⟨htw, ?_, ?_, ?_⟩⟩
      · rw [htw]; exact htrim
      · rw [htw]
        intro hmem
        have h10 := List.mem_takeWhile_imp hmem
        simp [isNonLF] at h10
      · apply dropWhile_nonNul_head
        intro hdrop
        have hsplit := List.takeWhile_append_dropWhile isNonNul (fppBuf1 readBytes bufSize)
        rw [hdrop, List.append_nil, htw] at hsplit
        have hlen1 : (fppBuf1 readBytes bufSize).length = bufSize :=
          fppBuf1_length readBytes bufSize hle
        rw [← hsplit] at hlen1
        have hs1 : ((readBytes.takeWhile isNonNul).takeWhile isNonLF).length
            ≤ readBytes.length :=
          le_trans (List.takeWhile_sublist _).length_le (List.takeWhile_sublist _).length_le
        omega

/-- C9 witness: `which` output "gdb\n" (bytes 103 100 98 10) into a
ten-byte buffer. -/
theorem C9_witness :
    [103, 100, 98, 10].length ≤ 10
    ∧ (((fetchProgramPath [103, 100, 98, 10] 10).1 = false ↔
        [103, 100, 98, 10].length = 10
        ∨ ([103, 100, 98, 10].takeWhile isNonNul).takeWhile isNonLF = [])
      ∧ ((fetchProgramPath [103, 100, 98, 10] 10).1 = true →
          (fetchProgramPath [103, 100, 98, 10] 10).2.takeWhile isNonNul
              = ([103, 100, 98, 10].takeWhile isNonNul).takeWhile isNonLF
          ∧ (fetchProgramPath [103, 100, 98, 10] 10).2.takeWhile isNonNul ≠ []
          ∧ (10 : Nat) ∉ (fetchProgramPath [103, 100, 98, 10] 10).2.takeWhile isNonNul
          ∧ ((fetchProgramPath [103, 100, 98, 10] 10).2.dropWhile isNonNul).head?
              = some 0)) :=
  ⟨by decide, C9_fetchProgramPath_spec [103, 100, 98, 10] 10 (by decide)⟩

/-- C8: for every signal in the fatal set the registrar queries the
current disposition; if the queried handler is the ignore sentinel
(`SIG_IGN`) the responder is not installed and the disposition is left
untouched, otherwise the previous disposition is stored in the
`oldAction` table and the responder is installed with `SA_SIGINFO`
delivery enabled. -/
theorem C8_registrar_respects_ignore (st : SigState) (sig : Int)
    (h : sig ∈ fatalSignals) :
    ((st.disposition sig).sa_handler = CHandler.sigIgn →
      (setFatalSignalHandler st).disposition sig = st.disposition sig)
    ∧ ((st.disposition sig).sa_handler ≠ CHandler.sigIgn →
      (setFatalSignalHandler st).oldAction sig = st.disposition sig
      ∧ (setFatalSignalHandler st).disposition sig = new_handler) := by
  simp only [fatalSignals, List.mem_cons, List.not_mem_nil, or_false] at h
  rcases h with rfl | rfl | rfl | rfl | rfl | rfl | rfl | rfl | rfl | rfl <;>
    constructor <;> intro hin <;>
      simp only [SIGABRT, SIGBUS, SIGFPE, SIGILL, SIGQUIT, SIGSEGV, SIGSYS,
        SIGTRAP, SIGXCPU, SIGXFSZ] at hin <;>
      simp [setFatalSignalHandler, SIGABRT, SIGBUS, SIGFPE, SIGILL, SIGQUIT,
        SIGSEGV, SIGSYS, SIGTRAP, SIGXCPU, SIGXFSZ,
        installOne_disposition_other, installOne_oldAction_other,
        installOne_disposition_self, installOne_oldAction_self, hin]

/-- C8 witness: `SIGSEGV` starting from the all-default state. -/
theorem C8_witness :
    SIGSEGV ∈ fatalSignals
    ∧ (((allDflState.disposition SIGSEGV).sa_handler = CHandler.sigIgn →
        (setFatalSignalHandler allDflState).disposition SIGSEGV
          = allDflState.disposition SIGSEGV)
      ∧ ((allDflState.disposition SIGSEGV).sa_handler ≠ CHandler.sigIgn →
        (setFatalSignalHandler allDflState).oldAction SIGSEGV
            = allDflState.disposition SIGSEGV
        ∧ (setFatalSignalHandler allDflState).disposition SIGSEGV = new_handler)) :=
  ⟨by decide, C8_registrar_respects_ignore allDflState SIGSEGV (by decide)⟩

end WZ
